import Mathlib

/-!
Verification of the per-title settings override subsystem of TWiLightMenu
(romsel_r4theme/arm9/source/perGameSettings.cpp), shallowly embedded.

The C++ module keeps a set of global per-title values (direct boot, DSi run
mode, language, CPU boost, VRAM boost, bootstrap file variant), loads and
saves them through a per-title INI file, and drives an interactive editor
whose visible fields and key handling depend on the context flags:
title classification (isHomebrew 0/1/2), isDSiMode(), REG_SCFG_EXT != 0,
useBootstrap, and secondaryDevice.

The INI file is modelled as a partial map from key names (within the single
GAMESETTINGS section) to integers; GetInt with a default becomes a lookup
with a fallback.  The editor loop is modelled as a step function over a
session state, one input event per step, covering the two editable branches
of the loop (isHomebrew == 1, and the retail branch); the info-only branch
(launcharg / DSiWare / isHomebrew == 2 / no bootstrap and no SCFG) has no
fields and merely exits.
-/

/-- Context flags the subsystem branches on: the title classification
(`isHomebrew` is 0, 1 or 2 in the source), whether `isDSiMode()` holds,
whether `REG_SCFG_EXT != 0`, whether `useBootstrap` is set, and whether the
settings file lives on the secondary device (flashcard) rather than SD. -/
structure Ctx where
  isHomebrew : Nat
  dsiModeActive : Bool
  scfgExt : Bool
  useBootstrap : Bool
  secondaryDevice : Bool
deriving DecidableEq

/-- The per-title setting values, mirroring the perGameSettings_* globals. -/
structure Settings where
  directBoot : Bool
  dsiMode : Int
  language : Int
  boostCpu : Int
  boostVram : Int
  bootstrapFile : Int
deriving DecidableEq

/-- GetInt on the single GAMESETTINGS section: stored value, or the default
when the file or key is absent. -/
def getInt (ini : String → Option Int) (key : String) (dflt : Int) : Int :=
  (ini key).getD dflt

/-- loadPerGameSettings: reads each key with its sentinel default; the
DIRECT_BOOT default is the secondaryDevice flag itself. -/
def loadPerGameSettings (ini : String → Option Int) (secondaryDevice : Bool) : Settings :=
  { directBoot := getInt ini "DIRECT_BOOT" (if secondaryDevice then 1 else 0) != 0
    dsiMode := getInt ini "DSI_MODE" (-1)
    language := getInt ini "LANGUAGE" (-2)
    boostCpu := getInt ini "BOOST_CPU" (-1)
    boostVram := getInt ini "BOOST_VRAM" (-1)
    bootstrapFile := getInt ini "BOOTSTRAP_FILE" (-1) }

/-- savePerGameSettings: the (key, value) pairs written to the INI file, in
source order.  Homebrew writes DIRECT_BOOT always and the DSi block only in
DSi mode; the retail branch runs only in DSi mode and gates LANGUAGE and
BOOTSTRAP_FILE on not being on the secondary device. -/
def savePerGameSettings (c : Ctx) (s : Settings) : List (String × Int) :=
  if c.isHomebrew == 1 then
    [("DIRECT_BOOT", if s.directBoot then 1 else 0)]
      ++ (if c.dsiModeActive then
            [("DSI_MODE", s.dsiMode), ("BOOST_CPU", s.boostCpu),
             ("BOOST_VRAM", s.boostVram)]
          else [])
  else if c.dsiModeActive then
    (if !c.secondaryDevice then [("LANGUAGE", s.language)] else [])
      ++ (if c.dsiModeActive then
            [("DSI_MODE", s.dsiMode), ("BOOST_CPU", s.boostCpu),
             ("BOOST_VRAM", s.boostVram)]
          else [])
      ++ (if !c.secondaryDevice then [("BOOTSTRAP_FILE", s.bootstrapFile)] else [])
  else []

/-- The set of keys a save writes, in order. -/
def savedKeys (c : Ctx) (s : Settings) : List String :=
  (savePerGameSettings c s).map Prod.fst

/-- checkIfShowAPMsg: show the anti-piracy message iff the stored
NO_SHOW_AP_MSG value (default 0) equals 0. -/
def checkIfShowAPMsg (ini : String → Option Int) : Bool :=
  getInt ini "NO_SHOW_AP_MSG" 0 == 0

/-- dontShowAPMsgAgain: sets NO_SHOW_AP_MSG to 1 and saves; modelled as the
updated key-value map. -/
def dontShowAPMsgAgain (ini : String → Option Int) : String → Option Int :=
  fun k => if k == "NO_SHOW_AP_MSG" then some 1 else ini k

/-- Cycle of the DSi run mode field: ++, wrapping above 2 back to -1. -/
def cycleDsiMode (x : Int) : Int :=
  if x + 1 > 2 then -1 else x + 1

/-- Cycle of the language field: ++, wrapping above 5 back to -2. -/
def cycleLanguage (x : Int) : Int :=
  if x + 1 > 5 then -2 else x + 1

/-- Cycle of the boost fields: ++, wrapping above 1 back to -1. -/
def cycleBoost (x : Int) : Int :=
  if x + 1 > 1 then -1 else x + 1

/-- Cycle of the bootstrap file field: ++, wrapping above 1 back to -1. -/
def cycleBootstrapFile (x : Int) : Int :=
  if x + 1 > 1 then -1 else x + 1

/-- KEY_A switch of the homebrew branch: case 0 (and default) toggles
directBoot, case 1 cycles dsiMode, cases 2 and 3 cycle the boost fields
only when dsiMode is 0 (the C++ guard is `!perGameSettings_dsiMode`),
case 4 cycles bootstrapFile. -/
def activateHomebrew (pos : Int) (s : Settings) : Settings :=
  if pos == 1 then { s with dsiMode := cycleDsiMode s.dsiMode }
  else if pos == 2 then
    (if s.dsiMode == 0 then { s with boostCpu := cycleBoost s.boostCpu } else s)
  else if pos == 3 then
    (if s.dsiMode == 0 then { s with boostVram := cycleBoost s.boostVram } else s)
  else if pos == 4 then { s with bootstrapFile := cycleBootstrapFile s.bootstrapFile }
  else { s with directBoot := !s.directBoot }

/-- KEY_A switch of the retail (non-homebrew) branch: case 0 (and default)
cycles language, case 1 cycles dsiMode, cases 2 and 3 cycle the boost
fields only when dsiMode < 1, case 4 cycles bootstrapFile. -/
def activateNonHomebrew (pos : Int) (s : Settings) : Settings :=
  if pos == 1 then { s with dsiMode := cycleDsiMode s.dsiMode }
  else if pos == 2 then
    (if s.dsiMode < 1 then { s with boostCpu := cycleBoost s.boostCpu } else s)
  else if pos == 3 then
    (if s.dsiMode < 1 then { s with boostVram := cycleBoost s.boostVram } else s)
  else if pos == 4 then { s with bootstrapFile := cycleBootstrapFile s.bootstrapFile }
  else { s with language := cycleLanguage s.language }

/-- Rendered run-mode value (both branches print the same strings). -/
def displayRunMode (v : Int) : String :=
  if v == -1 then "Default"
  else if v == 2 then "DSi mode (Forced)"
  else if v == 1 then "DSi mode"
  else "DS mode"

/-- Rendered CPU speed: forced to the boosted string when dsiMode > 0 and
DSi mode is active, otherwise from the stored value. -/
def displayBoostCpu (dsiMode boostCpu : Int) (dsiModeActive : Bool) : String :=
  if dsiMode > 0 && dsiModeActive then "133mhz (TWL)"
  else if boostCpu == -1 then "Default"
  else if boostCpu == 1 then "133mhz (TWL)"
  else "67mhz (NTR)"

/-- Rendered VRAM boost: forced to On when dsiMode > 0 and DSi mode is
active, otherwise from the stored value. -/
def displayBoostVram (dsiMode boostVram : Int) (dsiModeActive : Bool) : String :=
  if dsiMode > 0 && dsiModeActive then "On"
  else if boostVram == -1 then "Default"
  else if boostVram == 1 then "On"
  else "Off"

/-- KEY_UP handling when useBootstrap is set (identical in both editable
branches): decrement, wrap below 0 to 4, then the two skip adjustments for
non-DSi contexts. -/
def moveUpBootstrap (dsi scfg : Bool) (pos : Int) : Int :=
  let p := pos - 1
  let p := if p < 0 then 4 else p
  let p := if !dsi && scfg && p == 1 then 0 else p
  let p := if !dsi && !scfg && p == 3 then 0 else p
  p

/-- KEY_DOWN handling when useBootstrap is set: increment, wrap above 4 to
0, then the two skip adjustments for non-DSi contexts. -/
def moveDownBootstrap (dsi scfg : Bool) (pos : Int) : Int :=
  let p := pos + 1
  let p := if p > 4 then 0 else p
  let p := if !dsi && scfg && p == 1 then 2 else p
  let p := if !dsi && !scfg && p == 1 then 4 else p
  p

/-- KEY_UP handling when useBootstrap is not set: decrement, anything below
2 becomes 3. -/
def moveUpNoBootstrap (pos : Int) : Int :=
  let p := pos - 1
  if p < 2 then 3 else p

/-- KEY_DOWN handling when useBootstrap is not set: increment, anything
above 3 becomes 2. -/
def moveDownNoBootstrap (pos : Int) : Int :=
  let p := pos + 1
  if p > 3 then 2 else p

/-- Cursor move up, dispatching on useBootstrap. -/
def moveUp (c : Ctx) (pos : Int) : Int :=
  if c.useBootstrap then moveUpBootstrap c.dsiModeActive c.scfgExt pos
  else moveUpNoBootstrap pos

/-- Cursor move down, dispatching on useBootstrap. -/
def moveDown (c : Ctx) (pos : Int) : Int :=
  if c.useBootstrap then moveDownBootstrap c.dsiModeActive c.scfgExt pos
  else moveDownNoBootstrap pos

/-- Field rows the homebrew screen renders: direct boot always, run mode in
DSi mode, the boost rows when SCFG_EXT is nonzero, and the bootstrap row
when additionally useBootstrap is set. -/
def visibleFieldsHomebrew (dsi scfg ub : Bool) : List Int :=
  [0] ++ (if dsi then [1] else []) ++ (if scfg then [2, 3] else [])
    ++ (if scfg && ub then [4] else [])

/-- Field rows the retail screen renders: language and bootstrap when
useBootstrap is set, run mode in DSi mode, the boost rows when SCFG_EXT is
nonzero. -/
def visibleFieldsNonHomebrew (dsi scfg ub : Bool) : List Int :=
  (if ub then [0] else []) ++ (if dsi then [1] else [])
    ++ (if scfg then [2, 3] else []) ++ (if ub then [4] else [])

/-- Visible field rows for a context, by classification. -/
def visibleFields (c : Ctx) : List Int :=
  if c.isHomebrew == 1 then
    visibleFieldsHomebrew c.dsiModeActive c.scfgExt c.useBootstrap
  else
    visibleFieldsNonHomebrew c.dsiModeActive c.scfgExt c.useBootstrap

/-- Transient editor state: cursor, working settings copy, the
perGameSettingsChanged dirty flag, and whether the loop has been left. -/
structure Session where
  cursor : Int
  settings : Settings
  dirty : Bool
  exited : Bool
deriving DecidableEq

/-- Session state at editor open: cursor 0, dirty false, still browsing. -/
def initSession (s : Settings) : Session :=
  { cursor := 0, settings := s, dirty := false, exited := false }

/-- One input event per frame. -/
inductive Ev
  | up
  | down
  | a
  | b
deriving DecidableEq

/-- One step of the editable editor loop: the returned Bool records whether
savePerGameSettings was invoked.  KEY_A applies the branch's switch and
updates the dirty flag — the homebrew branch executes
`perGameSettingsChanged = !perGameSettingsChanged` (a toggle), the retail
branch sets it to true.  KEY_B saves exactly when dirty, clears dirty, and
leaves the loop. -/
def stepEditor (c : Ctx) (st : Session) (e : Ev) : Session × Bool :=
  match e with
  | Ev.up => ({ st with cursor := moveUp c st.cursor }, false)
  | Ev.down => ({ st with cursor := moveDown c st.cursor }, false)
  | Ev.a =>
      ({ st with
          settings :=
            if c.isHomebrew == 1 then activateHomebrew st.cursor st.settings
            else activateNonHomebrew st.cursor st.settings,
          dirty := if c.isHomebrew == 1 then !st.dirty else true }, false)
  | Ev.b => ({ st with dirty := false, exited := true }, st.dirty)

/-- C5: when the per-title file is missing, unreadable, or lacks a key
(modelled as the lookup returning none for that key), load substitutes the
sentinels: DirectBoot equals the secondaryDevice flag (false on the primary
device, true on the secondary one), RunMode -1, Language -2, CpuBoost -1,
VramBoost -1, BootstrapVariant -1; load is total, so it never fails. -/
theorem loadPerGameSettings_defaults (ini : String → Option Int) (sd : Bool) :
    (ini "DIRECT_BOOT" = none → (loadPerGameSettings ini sd).directBoot = sd)
  ∧ (ini "DSI_MODE" = none → (loadPerGameSettings ini sd).dsiMode = -1)
  ∧ (ini "LANGUAGE" = none → (loadPerGameSettings ini sd).language = -2)
  ∧ (ini "BOOST_CPU" = none → (loadPerGameSettings ini sd).boostCpu = -1)
  ∧ (ini "BOOST_VRAM" = none → (loadPerGameSettings ini sd).boostVram = -1)
  ∧ (ini "BOOTSTRAP_FILE" = none → (loadPerGameSettings ini sd).bootstrapFile = -1) := by
  refine ⟨fun h => ?_, fun h => ?_, fun h => ?_, fun h => ?_, fun h => ?_, fun h => ?_⟩ <;>
    cases sd <;> simp [loadPerGameSettings, getInt, *]

/-- Witness for C5: the all-absent file on the secondary device loads with
DirectBoot true. -/
theorem loadPerGameSettings_defaults_witness :
    ((fun _ => (none : Option Int)) "DIRECT_BOOT" = none)
  ∧ (loadPerGameSettings (fun _ => none) true).directBoot = true :=
  ⟨rfl, (loadPerGameSettings_defaults (fun _ => none) true).1 rfl⟩

/-- C9: shouldShowAntiPiracyNotice (checkIfShowAPMsg) is true whenever the
stored NO_SHOW_AP_MSG value is absent or 0, and after
suppressAntiPiracyNotice (dontShowAPMsgAgain) it is false. -/
theorem checkIfShowAPMsg_roundtrip (ini : String → Option Int) :
    ((ini "NO_SHOW_AP_MSG" = none ∨ ini "NO_SHOW_AP_MSG" = some 0) →
        checkIfShowAPMsg ini = true)
  ∧ checkIfShowAPMsg (dontShowAPMsgAgain ini) = false := by
  constructor
  · rintro (h | h) <;> simp [checkIfShowAPMsg, getInt, h]
  · simp [checkIfShowAPMsg, getInt, dontShowAPMsgAgain]

/-- Witness for C9: with no stored flag the message shows. -/
theorem checkIfShowAPMsg_roundtrip_witness :
    ((fun _ => (none : Option Int)) "NO_SHOW_AP_MSG" = none ∨
        (fun _ => (none : Option Int)) "NO_SHOW_AP_MSG" = some 0)
  ∧ checkIfShowAPMsg (fun _ => none) = true :=
  ⟨Or.inl rfl, (checkIfShowAPMsg_roundtrip (fun _ => none)).1 (Or.inl rfl)⟩

/-- C8: KEY_B in the editable loop invokes savePerGameSettings exactly when
the dirty flag is set at that moment, clears the dirty flag, and leaves the
loop; in particular a session exited with dirty false performs no save. -/
theorem exit_saves_iff_dirty (c : Ctx) (st : Session) :
    ((stepEditor c st Ev.b).2 = true ↔ st.dirty = true)
  ∧ (stepEditor c st Ev.b).1.dirty = false
  ∧ (stepEditor c st Ev.b).1.exited = true :=
  ⟨Iff.rfl, rfl, rfl⟩

/-- C1 fails on the code: in the homebrew branch KEY_A toggles the dirty
flag instead of setting it, so after two Activate events in a fresh
homebrew session the dirty flag is false; the retail branch sets it to
true as the spec states. -/
theorem dirty_false_after_two_activates :
    ((stepEditor ⟨1, true, true, true, false⟩
        ((stepEditor ⟨1, true, true, true, false⟩
            (initSession ⟨false, -1, -2, -1, -1, -1⟩) Ev.a).1) Ev.a).1).dirty = false
  ∧ ((stepEditor ⟨0, true, true, true, false⟩
        ((stepEditor ⟨0, true, true, true, false⟩
            (initSession ⟨false, -1, -2, -1, -1, -1⟩) Ev.a).1) Ev.a).1).dirty = true := by
  decide

/-- C4: for a non-homebrew title with DSi mode inactive and the bootstrap
helper inactive, a save writes no key at all, whatever the session changed. -/
theorem save_nothing_nonhomebrew (c : Ctx) (s : Settings)
    (h1 : c.isHomebrew = 0) (h2 : c.dsiModeActive = false)
    (h3 : c.useBootstrap = false) :
    savedKeys c s = [] := by
  simp [savedKeys, savePerGameSettings, h1, h2]

/-- Witness for C4: a concrete non-homebrew, non-DSi, non-bootstrap context
with every field changed still saves nothing. -/
theorem save_nothing_nonhomebrew_witness :
    (⟨0, false, false, false, false⟩ : Ctx).isHomebrew = 0
  ∧ savedKeys ⟨0, false, false, false, false⟩ ⟨true, 2, 5, 1, 1, 1⟩ = [] :=
  ⟨rfl, save_nothing_nonhomebrew ⟨0, false, false, false, false⟩ ⟨true, 2, 5, 1, 1, 1⟩
    rfl rfl rfl⟩

/-- C3 as stated is false: the four-key write is gated on DSi mode being
active, not on the capability register; with the register present but DSi
mode inactive a homebrew save writes only DIRECT_BOOT. -/
theorem save_homebrew_scfg_counterexample :
    (⟨1, false, true, true, false⟩ : Ctx).scfgExt = true
  ∧ savedKeys ⟨1, false, true, true, false⟩ ⟨true, -1, -2, 1, -1, -1⟩ = ["DIRECT_BOOT"]
  ∧ savedKeys ⟨1, false, true, true, false⟩ ⟨true, -1, -2, 1, -1, -1⟩ ≠
      ["DIRECT_BOOT", "DSI_MODE", "BOOST_CPU", "BOOST_VRAM"] := by
  refine ⟨rfl, by decide, by decide⟩

/-- C3 amended: for a homebrew title, a save writes exactly DIRECT_BOOT,
DSI_MODE, BOOST_CPU and BOOST_VRAM when DSi mode is active, and only
DIRECT_BOOT otherwise; LANGUAGE and BOOTSTRAP_FILE are never written for a
homebrew title in any context. -/
theorem save_homebrew_keys (c : Ctx) (s : Settings) (h : c.isHomebrew = 1) :
    (c.dsiModeActive = true →
        savedKeys c s = ["DIRECT_BOOT", "DSI_MODE", "BOOST_CPU", "BOOST_VRAM"])
  ∧ (c.dsiModeActive = false → savedKeys c s = ["DIRECT_BOOT"])
  ∧ "LANGUAGE" ∉ savedKeys c s
  ∧ "BOOTSTRAP_FILE" ∉ savedKeys c s := by
  cases hd : c.dsiModeActive <;> simp_all [savedKeys, savePerGameSettings]

/-- Witness for C3: a homebrew, DSi-mode-active context saves exactly the
four keys. -/
theorem save_homebrew_keys_witness :
    (⟨1, true, true, true, false⟩ : Ctx).isHomebrew = 1
  ∧ savedKeys ⟨1, true, true, true, false⟩ ⟨true, 1, -2, 1, -1, -1⟩ =
      ["DIRECT_BOOT", "DSI_MODE", "BOOST_CPU", "BOOST_VRAM"] :=
  ⟨rfl, (save_homebrew_keys ⟨1, true, true, true, false⟩ ⟨true, 1, -2, 1, -1, -1⟩ rfl).1 rfl⟩

/-- C10: for a non-homebrew title in DSi mode loaded from the secondary
device, a save never writes LANGUAGE or BOOTSTRAP_FILE, bootstrap helper
and edited values notwithstanding. -/
theorem save_flashcard_no_language (c : Ctx) (s : Settings)
    (h1 : c.isHomebrew = 0) (h2 : c.dsiModeActive = true)
    (h3 : c.secondaryDevice = true) :
    "LANGUAGE" ∉ savedKeys c s ∧ "BOOTSTRAP_FILE" ∉ savedKeys c s := by
  simp [savedKeys, savePerGameSettings, h1, h2, h3]

/-- Witness for C10: bootstrap helper active, language and bootstrap file
edited, still neither key is saved. -/
theorem save_flashcard_no_language_witness :
    (⟨0, true, true, true, true⟩ : Ctx).secondaryDevice = true
  ∧ "LANGUAGE" ∉ savedKeys ⟨0, true, true, true, true⟩ ⟨false, -1, 1, -1, -1, 1⟩ :=
  ⟨rfl, (save_flashcard_no_language ⟨0, true, true, true, true⟩ ⟨false, -1, 1, -1, -1, 1⟩
    rfl rfl rfl).1⟩

/-- The boost cycle never fixes a value, so a guarded Activate changes the
field exactly when its guard passes. -/
theorem cycleBoost_ne (x : Int) : cycleBoost x ≠ x := by
  unfold cycleBoost
  split <;> omega

/-- C7: Activate applies the field's cycle; toggling DirectBoot twice is
the identity, the RunMode cycle has length 4 on domain {-1,0,1,2}, the
Language cycle length 8 on {-2,...,5}, the BootstrapVariant cycle length 3
on {-1,0,1}, and from RunMode -1 the four Activates yield 0, 1, 2, -1. -/
theorem activate_cycle_lengths :
    (∀ s : Settings, (activateHomebrew 0 (activateHomebrew 0 s)).directBoot = s.directBoot)
  ∧ (∀ s : Settings,
        (activateHomebrew 1 s).dsiMode = cycleDsiMode s.dsiMode
      ∧ (activateNonHomebrew 1 s).dsiMode = cycleDsiMode s.dsiMode
      ∧ (activateNonHomebrew 0 s).language = cycleLanguage s.language
      ∧ (activateHomebrew 4 s).bootstrapFile = cycleBootstrapFile s.bootstrapFile)
  ∧ (∀ x : Int, (x = -1 ∨ x = 0 ∨ x = 1 ∨ x = 2) →
        cycleDsiMode (cycleDsiMode (cycleDsiMode (cycleDsiMode x))) = x)
  ∧ (∀ x : Int, (x = -2 ∨ x = -1 ∨ x = 0 ∨ x = 1 ∨ x = 2 ∨ x = 3 ∨ x = 4 ∨ x = 5) →
        cycleLanguage (cycleLanguage (cycleLanguage (cycleLanguage
          (cycleLanguage (cycleLanguage (cycleLanguage (cycleLanguage x))))))) = x)
  ∧ (∀ x : Int, (x = -1 ∨ x = 0 ∨ x = 1) →
        cycleBootstrapFile (cycleBootstrapFile (cycleBootstrapFile x)) = x)
  ∧ (cycleDsiMode (-1) = 0 ∧ cycleDsiMode 0 = 1 ∧ cycleDsiMode 1 = 2
      ∧ cycleDsiMode 2 = -1) := by
  refine ⟨?_, ?_, ?_, ?_, ?_, by decide⟩
  · intro s
    simp [activateHomebrew]
  · intro s
    exact ⟨rfl, rfl, rfl, rfl⟩
  · rintro x (rfl | rfl | rfl | rfl) <;> decide
  · rintro x (rfl | rfl | rfl | rfl | rfl | rfl | rfl | rfl) <;> decide
  · rintro x (rfl | rfl | rfl) <;> decide

/-- Witness for C7: the RunMode cycle closes after four steps from -1. -/
theorem activate_cycle_lengths_witness :
    ((-1 : Int) = -1 ∨ (-1 : Int) = 0 ∨ (-1 : Int) = 1 ∨ (-1 : Int) = 2)
  ∧ cycleDsiMode (cycleDsiMode (cycleDsiMode (cycleDsiMode (-1)))) = -1 :=
  ⟨Or.inl rfl, activate_cycle_lengths.2.2.1 (-1) (Or.inl rfl)⟩

/-- C2 as stated is false: in the homebrew branch, with RunMode holding the
sentinel -1 (rendered "Default", not the forced mode), Activate on CpuBoost
is already a no-op. -/
theorem boost_noop_counterexample :
    (activateHomebrew 2 ⟨false, -1, -2, -1, -1, -1⟩).boostCpu = -1
  ∧ displayRunMode (-1) = "Default"
  ∧ displayRunMode (-1) ≠ "DSi mode (Forced)" := by
  refine ⟨by decide, by decide, by decide⟩

/-- C2 amended: Activate on CpuBoost/VramBoost is a no-op exactly when
RunMode is nonzero in the homebrew branch, and exactly when RunMode is at
least 1 in the retail branch; the rendered boost values are the boosted
ones whenever RunMode is positive and DSi mode is active, regardless of
the stored override. -/
theorem boost_noop_iff (s : Settings) :
    ((activateHomebrew 2 s).boostCpu = s.boostCpu ↔ s.dsiMode ≠ 0)
  ∧ ((activateHomebrew 3 s).boostVram = s.boostVram ↔ s.dsiMode ≠ 0)
  ∧ ((activateNonHomebrew 2 s).boostCpu = s.boostCpu ↔ 1 ≤ s.dsiMode)
  ∧ ((activateNonHomebrew 3 s).boostVram = s.boostVram ↔ 1 ≤ s.dsiMode)
  ∧ (0 < s.dsiMode →
        displayBoostCpu s.dsiMode s.boostCpu true = "133mhz (TWL)"
      ∧ displayBoostVram s.dsiMode s.boostVram true = "On") := by
  have hcb := cycleBoost_ne s.boostCpu
  have hcv := cycleBoost_ne s.boostVram
  refine ⟨?_, ?_, ?_, ?_, fun h => ?_⟩
  · by_cases h : s.dsiMode = 0 <;> simp [activateHomebrew, h, hcb]
  · by_cases h : s.dsiMode = 0 <;> simp [activateHomebrew, h, hcv]
  · by_cases h : s.dsiMode < 1 <;> simp [activateNonHomebrew, h, hcb] <;> omega
  · by_cases h : s.dsiMode < 1 <;> simp [activateNonHomebrew, h, hcv] <;> omega
  · constructor <;> simp [displayBoostCpu, displayBoostVram, h]

/-- Witness for C2: with RunMode 2 and an explicit non-boost override 0,
the rendered CPU speed is still the boosted one. -/
theorem boost_noop_iff_witness :
    (0 : Int) < 2
  ∧ displayBoostCpu 2 0 true = "133mhz (TWL)" :=
  ⟨by decide, ((boost_noop_iff ⟨false, 2, -2, 0, 0, -1⟩).2.2.2.2 (by decide)).1⟩

/-- C6 as stated is false: in a homebrew session with the bootstrap helper
inactive (DSi mode active, capability register present), the visible rows
are 0..3, three KEY_DOWN steps from the initial cursor 0 reach the last
visible row 3, and a further KEY_DOWN wraps to row 2, not to the first
visible row 0. -/
theorem cursor_wrap_counterexample :
    visibleFields ⟨1, true, true, false, false⟩ = [0, 1, 2, 3]
  ∧ (initSession ⟨false, -1, -2, -1, -1, -1⟩).cursor = 0
  ∧ moveDown ⟨1, true, true, false, false⟩
      (moveDown ⟨1, true, true, false, false⟩
        (moveDown ⟨1, true, true, false, false⟩
          (initSession ⟨false, -1, -2, -1, -1, -1⟩).cursor)) = 3
  ∧ moveDown ⟨1, true, true, false, false⟩ 3 = 2
  ∧ (2 : Int) ≠ 0 := by
  refine ⟨by decide, rfl, by decide, by decide, by decide⟩

/-- C6 amended: the cursor invariant (starts at 0 which is visible, dirty
false, every move from a visible row lands on a visible row, moving down
from the last visible row wraps to the first and moving up from the first
wraps to the last) holds when the bootstrap helper is active and either
the capability register is present or the title is non-homebrew with DSi
mode inactive; in the remaining contexts navigation can leave the visible
list or wrap to row 2 instead of the first visible row. -/
theorem cursor_visible_wrap (c : Ctx)
    (hub : c.useBootstrap = true)
    (hcap : c.scfgExt = true ∨ (c.dsiModeActive = false ∧ c.isHomebrew ≠ 1)) :
    (∀ s : Settings, (initSession s).cursor = 0 ∧ (initSession s).dirty = false)
  ∧ (0 : Int) ∈ visibleFields c
  ∧ (∀ p ∈ visibleFields c,
        moveUp c p ∈ visibleFields c ∧ moveDown c p ∈ visibleFields c)
  ∧ moveDown c ((visibleFields c).getLastD 0) = (visibleFields c).headD 0
  ∧ moveUp c ((visibleFields c).headD 0) = (visibleFields c).getLastD 0 := by
  obtain ⟨hb, dsi, scfg, ub, sd⟩ := c
  dsimp only at hub hcap
  subst hub
  refine ⟨fun s => ⟨rfl, rfl⟩, ?_⟩
  by_cases hhb : hb = 1
  · subst hhb
    rcases hcap with h | ⟨h, h2⟩
    · subst h
      cases dsi <;> cases sd <;> decide
    · exact absurd rfl h2
  · have hvf : visibleFields ⟨hb, dsi, scfg, true, sd⟩ =
        visibleFieldsNonHomebrew dsi scfg true := by
      simp [visibleFields, hhb]
    have hmu : moveUp ⟨hb, dsi, scfg, true, sd⟩ = moveUpBootstrap dsi scfg := rfl
    have hmd : moveDown ⟨hb, dsi, scfg, true, sd⟩ = moveDownBootstrap dsi scfg := rfl
    rw [hvf, hmu, hmd]
    rcases hcap with h | ⟨h, h2⟩
    · subst h
      cases dsi <;> decide
    · subst h
      cases scfg <;> decide

/-- Witness for C6: a non-homebrew, bootstrap-active, DSi-mode context with
the capability register present keeps the cursor on visible rows. -/
theorem cursor_visible_wrap_witness :
    (⟨0, true, true, true, false⟩ : Ctx).useBootstrap = true
  ∧ (0 : Int) ∈ visibleFields ⟨0, true, true, true, false⟩ :=
  ⟨rfl, (cursor_visible_wrap ⟨0, true, true, true, false⟩ rfl (Or.inl rfl)).2.1⟩

/-- Witness for C8: a dirty session saves on KEY_B. -/
theorem exit_saves_iff_dirty_witness :
    (stepEditor ⟨1, true, true, true, false⟩
        ⟨0, ⟨false, -1, -2, -1, -1, -1⟩, true, false⟩ Ev.b).2 = true :=
  (exit_saves_iff_dirty ⟨1, true, true, true, false⟩
      ⟨0, ⟨false, -1, -2, -1, -1, -1⟩, true, false⟩).1.mpr rfl
